import Mathlib

/-!
Shallow embedding of `src/service_deployment_tools/check_marathon_services_replication.py`:
the replication evaluation and alerting engine.  Pure functions of the script are embedded
as Lean functions; the external collaborators (`marathon_tools` accessors, the monitoring
configuration lookups of `monitoring_tools`, the sensu transport of `pysensu_yelp`) are
embedded as explicit snapshot parameters, with `Except`/`Option` standing for raised
exceptions and suppression.  Python integers are `Nat`/`Int`, the real-valued ratio is `ℚ`.
-/

set_option autoImplicit false

namespace MarathonReplication

/-- Modelled from the spec: `marathon_tools.ID_SPACER` is not under `src/`.  The spec fixes a
single separator token between the service name and the namespace, and the module docstring's
example id is `"mumble.main"`, so the separator is the one-character string `"."`. -/
def ID_SPACER : String := "."

/-- Python `str.split` with a one-character separator, on the character list of the string:
`"a.b.c"` splits to `["a", "b", "c"]`, `"abc"` to `["abc"]`, `""` to `[""]`, the result is
never empty. -/
def pySplitChars (sep : Char) : List Char → List (List Char)
  | [] => [[]]
  | c :: rest =>
    if c = sep then
      [] :: pySplitChars sep rest
    else
      match pySplitChars sep rest with
      | [] => [[c]]
      | h :: t => (c :: h) :: t

/-- Python `str.split` with a one-character separator, as a function on `String`. -/
def pySplit (sep : Char) (s : String) : List String :=
  (pySplitChars sep s.data).map fun cs => String.mk cs

/-- `split_id` from the source: `(fid.split(ID_SPACER)[0], fid.split(ID_SPACER)[1])`.
Indexing `[0]` never fails (Python `split` never returns an empty list); indexing `[1]`
raises `IndexError` exactly when the separator does not occur, modelled as `none`. -/
def split_id (fid : String) : Option (String × String) :=
  match pySplit '.' fid with
  | a :: b :: _ => some (a, b)
  | _ => none

/-- Modelled from the spec: the content of one `read_service_config` result that the check
reads — the optional `nerve_ns` entry and the instance count returned by `get_instances`. -/
structure SrvConfig where
  nerve_ns : Option String
  instances : Nat
  deriving DecidableEq

/-- Modelled from the spec: the external SOA configuration store (the `marathon_tools`
accessors are not under `src/`).  `instance_list` is `get_service_instance_list` for a
service name, returning `(name, instance)` pairs; `config` is `read_service_config`
together with `get_instances`.  `Except.error ()` stands for a raised structural error
(`IndexError`, `KeyError`, `OSError`, `ValueError`, `AttributeError`). -/
structure SoaDir where
  instance_list : String → Except Unit (List (String × String))
  config : String → String → Except Unit SrvConfig

/-- The loop body of `get_expected_instances`: for each `(name, instance)` pair read the
service config, resolve the effective namespace as `srv_config['nerve_ns']` when present and
the instance name otherwise, and accumulate `get_instances(srv_config)` when it equals the
target namespace.  A structural error from any lookup propagates, as a raised exception
does in the source. -/
def expected_from_list (nspace : String) (soa_dir : SoaDir) :
    List (String × String) → Except Unit Nat
  | [] => Except.ok 0
  | (name, inst) :: rest =>
    match soa_dir.config name inst with
    | Except.error e => Except.error e
    | Except.ok srv_config =>
      let instance_ns := srv_config.nerve_ns.getD inst
      match expected_from_list nspace soa_dir rest with
      | Except.error e => Except.error e
      | Except.ok total =>
        Except.ok (if nspace = instance_ns then srv_config.instances + total else total)

/-- `get_expected_instances` from the source: sum the instance counts of the service's
declared instances whose effective namespace equals the target namespace. -/
def get_expected_instances (service_name nspace : String) (soa_dir : SoaDir) :
    Except Unit Nat :=
  match soa_dir.instance_list service_name with
  | Except.error e => Except.error e
  | Except.ok lst => expected_from_list nspace soa_dir lst

/-- Modelled from the spec: the sensu status codes used by the check (`pysensu_yelp.Status`
is an external package). -/
inductive Status where
  | OK
  | WARNING
  | CRITICAL
  deriving DecidableEq

/-- Modelled from the spec: the monitoring-configuration lookups (`monitoring_tools` is not
under `src/`).  Each lookup takes the framework and the service name; `get_team` yields
`none` when no team is configured for the service. -/
structure MonitoringConfig where
  get_team : String → String → Option String
  get_runbook : String → String → String
  get_tip : String → String → String
  get_notification_email : String → String → String
  get_page : String → String → Bool

/-- The event handed to `pysensu_yelp.send_event`: the check name, runbook, status and
output, the team, and the keyword arguments of `result_dict`. -/
structure Event where
  check_name : String
  runbook : String
  status : Status
  output : String
  team : String
  tip : String
  notification_email : String
  page : Bool
  alert_after : String
  check_every : String
  realert_every : Int
  deriving DecidableEq

/-- `send_event` from the source.  The check name is
`'check_marathon_services_replication.%s%s%s' % (service_name, ID_SPACER, namespace)`.
When the team lookup yields nothing (Python `if not team: return`, true for `None` and for
the empty string) the function returns before contacting the transport, modelled as `none`;
otherwise the emitted event is returned. -/
def send_event (mon : MonitoringConfig) (service_name nspace : String) (status : Status)
    (output : String) : Option Event :=
  let framework := "marathon"
  let check_name :=
    "check_marathon_services_replication." ++ service_name ++ ID_SPACER ++ nspace
  match mon.get_team framework service_name with
  | none => none
  | some team =>
    if team = "" then none
    else
      some
        { check_name := check_name
          runbook := mon.get_runbook framework service_name
          status := status
          output := output
          team := team
          tip := mon.get_tip framework service_name
          notification_email := mon.get_notification_email framework service_name
          page := mon.get_page framework service_name
          alert_after := "2m"
          check_every := "1m"
          realert_every := -1 }

/-- The real-valued ratio `(num_available / float(num_expected)) * 100` of the source. -/
def ratio_of (num_available num_expected : Nat) : ℚ :=
  ((num_available : ℚ) / (num_expected : ℚ)) * 100

/-- The `if ratio <= crit_threshold / elif ratio <= warn_threshold / else` classification of
`check_namespaces` (lines 147-155 of the source). -/
def classify (r : ℚ) (crit_threshold warn_threshold : Int) : Status :=
  if r ≤ (crit_threshold : ℚ) then Status.CRITICAL
  else if r ≤ (warn_threshold : ℚ) then Status.WARNING
  else Status.OK

/-- The message of the missing-availability branch of `check_namespaces`. -/
def not_found_output (full_name : String) : String :=
  "Service namespace entry " ++ full_name ++ " not found! No instances available!"

/-- The message of the evaluated branch of `check_namespaces`; the Python string literal
continues over a line break, so it contains the 18 spaces of the continuation line's
indentation. -/
def threshold_output (full_name : String) (num_available num_expected : Nat)
    (warn_threshold crit_threshold : Int) : String :=
  "Service namespace " ++ full_name ++ " has " ++ toString num_available ++ "/" ++
    toString num_expected ++
    " instances available,                  thresholds are WARN @ " ++
    toString warn_threshold ++ ", CRITICAL @ " ++ toString crit_threshold

/-- The terminal state of one iteration of the `check_namespaces` loop for one namespace:
skipped because it is not a marathon service (the `except` branch), skipped because no
instances are expected, the missing-availability critical branch, or the threshold-evaluated
branch.  The `Option Event` is what `send_event` produced (`none` when suppressed). -/
inductive CheckResult where
  | not_marathon
  | zero_expected
  | no_data (ev : Option Event)
  | evaluated (st : Status) (ev : Option Event)
  deriving DecidableEq

/-- The events a per-namespace outcome hands to the transport. -/
def eventsOf : CheckResult → List Event
  | CheckResult.not_marathon => []
  | CheckResult.zero_expected => []
  | CheckResult.no_data ev => ev.toList
  | CheckResult.evaluated _ ev => ev.toList

/-- One iteration of the `check_namespaces` loop (lines 122-156 of the source): split the
full name, resolve the expected count (any structural error skips the namespace), skip on
zero expected instances, go critical with a distinct message when the namespace is absent
from `available_backends`, and otherwise classify the ratio against the thresholds. -/
def check_one (soa_dir : SoaDir) (mon : MonitoringConfig)
    (available_backends : String → Option Nat) (crit_threshold warn_threshold : Int)
    (full_name : String) : CheckResult :=
  match split_id full_name with
  | none => CheckResult.not_marathon
  | some (service_name, nspace) =>
    match get_expected_instances service_name nspace soa_dir with
    | Except.error _ => CheckResult.not_marathon
    | Except.ok num_expected =>
      if num_expected = 0 then CheckResult.zero_expected
      else
        match available_backends full_name with
        | none =>
          CheckResult.no_data
            (send_event mon service_name nspace Status.CRITICAL (not_found_output full_name))
        | some num_available =>
          let st := classify (ratio_of num_available num_expected) crit_threshold warn_threshold
          CheckResult.evaluated st
            (send_event mon service_name nspace st
              (threshold_output full_name num_available num_expected warn_threshold
                crit_threshold))

/-- `check_namespaces` from the source, as the list of events emitted to the transport, in
iteration order. -/
def check_namespaces (all_namespaces : List String)
    (available_backends : String → Option Nat) (soa_dir : SoaDir) (mon : MonitoringConfig)
    (crit_threshold warn_threshold : Int) : List Event :=
  match all_namespaces with
  | [] => []
  | full_name :: rest =>
    eventsOf (check_one soa_dir mon available_backends crit_threshold warn_threshold
        full_name) ++
      check_namespaces rest available_backends soa_dir mon crit_threshold warn_threshold

/-- The per-namespace outcome list of one `check_namespaces` run. -/
def check_outcomes (all_namespaces : List String)
    (available_backends : String → Option Nat) (soa_dir : SoaDir) (mon : MonitoringConfig)
    (crit_threshold warn_threshold : Int) : List (String × CheckResult) :=
  all_namespaces.map fun n =>
    (n, check_one soa_dir mon available_backends crit_threshold warn_threshold n)

/-- Two consecutive runs of the check over the same immutable input snapshots, each run
producing its per-namespace outcomes and its emitted events. -/
def run_check_twice (all_namespaces : List String)
    (available_backends : String → Option Nat) (soa_dir : SoaDir) (mon : MonitoringConfig)
    (crit_threshold warn_threshold : Int) :
    (List (String × CheckResult) × List Event) × (List (String × CheckResult) × List Event) :=
  ((check_outcomes all_namespaces available_backends soa_dir mon crit_threshold warn_threshold,
    check_namespaces all_namespaces available_backends soa_dir mon crit_threshold
      warn_threshold),
   (check_outcomes all_namespaces available_backends soa_dir mon crit_threshold warn_threshold,
    check_namespaces all_namespaces available_backends soa_dir mon crit_threshold
      warn_threshold))

/-- Concrete SOA snapshot for witnesses: service `mumble` declares one instance `main` with
10 instances and no `nerve_ns`; service `broken` fails structurally. -/
def soaW : SoaDir where
  instance_list := fun s =>
    if s = "mumble" then Except.ok [("mumble", "main")]
    else if s = "broken" then Except.error ()
    else Except.ok []
  config := fun n i =>
    if n = "mumble" ∧ i = "main" then Except.ok { nerve_ns := none, instances := 10 }
    else Except.error ()

/-- Concrete monitoring snapshot for witnesses: every service is owned by team `ops`. -/
def monW : MonitoringConfig where
  get_team := fun _ _ => some "ops"
  get_runbook := fun _ _ => "http://y/rb-marathon"
  get_tip := fun _ _ => "check the deploy"
  get_notification_email := fun _ _ => "ops@example.com"
  get_page := fun _ _ => true

/-- Concrete monitoring snapshot for witnesses: no service has a configured team. -/
def monNoTeamW : MonitoringConfig where
  get_team := fun _ _ => none
  get_runbook := fun _ _ => ""
  get_tip := fun _ _ => ""
  get_notification_email := fun _ _ => ""
  get_page := fun _ _ => false

/-- Concrete availability snapshot for witnesses: `mumble.main` has 9 backends. -/
def availW : String → Option Nat := fun n =>
  if n = "mumble.main" then some 9 else none

/-- Availability snapshot for witnesses with 8 backends for `mumble.main`. -/
def availW8 : String → Option Nat := fun n =>
  if n = "mumble.main" then some 8 else none

/-- Empty availability snapshot for witnesses. -/
def availEmptyW : String → Option Nat := fun _ => none

/-- The resolved configs of `soaW`, as a total function, used to state witnesses. -/
def cfgW : String → String → SrvConfig := fun n i =>
  if n = "mumble" ∧ i = "main" then { nerve_ns := none, instances := 10 }
  else { nerve_ns := none, instances := 0 }

/-- Shared config table for the permutation witness. -/
def cfgPexc : String → String → Except Unit SrvConfig := fun n i =>
  if n = "mumble" ∧ i = "main" then Except.ok { nerve_ns := none, instances := 3 }
  else if n = "mumble" ∧ i = "canary" then Except.ok { nerve_ns := some "main", instances := 2 }
  else Except.error ()

/-- SOA snapshot listing the declarations of `mumble` in one order. -/
def soaP1 : SoaDir where
  instance_list := fun s =>
    if s = "mumble" then Except.ok [("mumble", "main"), ("mumble", "canary")]
    else Except.ok []
  config := cfgPexc

/-- The same SOA snapshot with the declarations permuted. -/
def soaP2 : SoaDir where
  instance_list := fun s =>
    if s = "mumble" then Except.ok [("mumble", "canary"), ("mumble", "main")]
    else Except.ok []
  config := cfgPexc

/-- The resolved configs of `cfgPexc`, as a total function, used to state witnesses. -/
def cfgP : String → String → SrvConfig := fun n i =>
  if n = "mumble" ∧ i = "main" then { nerve_ns := none, instances := 3 }
  else if n = "mumble" ∧ i = "canary" then { nerve_ns := some "main", instances := 2 }
  else { nerve_ns := none, instances := 0 }

/-- The event `send_event monW "mumble" "main" Status.OK "out"` produces. -/
def evW : Event where
  check_name := "check_marathon_services_replication.mumble.main"
  runbook := "http://y/rb-marathon"
  status := Status.OK
  output := "out"
  team := "ops"
  tip := "check the deploy"
  notification_email := "ops@example.com"
  page := true
  alert_after := "2m"
  check_every := "1m"
  realert_every := -1

/-- When every config lookup of the listed pairs resolves, the loop of
`get_expected_instances` computes the sum of the instance counts of exactly the pairs whose
effective namespace equals the target namespace. -/
theorem expected_from_list_eq_sum (nspace : String) (soa_dir : SoaDir)
    (cfg : String → String → SrvConfig) :
    ∀ pairs : List (String × String),
      (∀ p ∈ pairs, soa_dir.config p.1 p.2 = Except.ok (cfg p.1 p.2)) →
      expected_from_list nspace soa_dir pairs =
        Except.ok
          (((pairs.filter fun p => decide (nspace = (cfg p.1 p.2).nerve_ns.getD p.2)).map
            fun p => (cfg p.1 p.2).instances).sum) := by
  intro pairs
  induction pairs with
  | nil => intro _; rfl
  | cons p rest ih =>
    intro h
    obtain ⟨name, inst⟩ := p
    have hp := h (name, inst) (List.mem_cons_self _ _)
    have hrest := fun q hq => h q (List.mem_cons_of_mem _ hq)
    simp only [expected_from_list, hp, ih hrest]
    by_cases hns : nspace = (cfg name inst).nerve_ns.getD inst
    · simp [List.filter_cons, hns]
    · simp [List.filter_cons, hns]

/-- C2: `get_expected_instances` returns the sum of the declared instance counts over
exactly those listed instance declarations of the service whose effective namespace — the
`nerve_ns` value when present, the instance name otherwise — equals the target namespace,
and returns 0 when no declaration matches. -/
theorem get_expected_instances_sums (service_name nspace : String) (soa_dir : SoaDir)
    (pairs : List (String × String)) (cfg : String → String → SrvConfig)
    (h1 : soa_dir.instance_list service_name = Except.ok pairs)
    (h2 : ∀ p ∈ pairs, soa_dir.config p.1 p.2 = Except.ok (cfg p.1 p.2)) :
    get_expected_instances service_name nspace soa_dir =
      Except.ok
        (((pairs.filter fun p => decide (nspace = (cfg p.1 p.2).nerve_ns.getD p.2)).map
          fun p => (cfg p.1 p.2).instances).sum) ∧
    ((∀ p ∈ pairs, nspace ≠ (cfg p.1 p.2).nerve_ns.getD p.2) →
      get_expected_instances service_name nspace soa_dir = Except.ok 0) := by
  have hmain : get_expected_instances service_name nspace soa_dir =
      Except.ok
        (((pairs.filter fun p => decide (nspace = (cfg p.1 p.2).nerve_ns.getD p.2)).map
          fun p => (cfg p.1 p.2).instances).sum) := by
    unfold get_expected_instances
    rw [h1]
    exact expected_from_list_eq_sum nspace soa_dir cfg pairs h2
  refine ⟨hmain, fun hnone => ?_⟩
  rw [hmain]
  have hfil : pairs.filter (fun p => decide (nspace = (cfg p.1 p.2).nerve_ns.getD p.2)) = [] :=
    List.filter_eq_nil_iff.mpr (by simpa using hnone)
  rw [hfil]
  rfl

/-- C2 witness at the concrete snapshot `soaW`. -/
theorem get_expected_instances_sums_w :
    get_expected_instances "mumble" "main" soaW =
      Except.ok
        ((([("mumble", "main")].filter fun p =>
            decide ("main" = (cfgW p.1 p.2).nerve_ns.getD p.2)).map
          fun p => (cfgW p.1 p.2).instances).sum) ∧
    get_expected_instances "mumble" "other" soaW = Except.ok 0 :=
  ⟨(get_expected_instances_sums "mumble" "main" soaW [("mumble", "main")] cfgW rfl
      (by intro p hp; simp only [List.mem_singleton] at hp; subst hp; rfl)).1,
   (get_expected_instances_sums "mumble" "other" soaW [("mumble", "main")] cfgW rfl
      (by intro p hp; simp only [List.mem_singleton] at hp; subst hp; rfl)).2
     (by intro p hp; simp only [List.mem_singleton] at hp; subst hp; decide)⟩

/-- C8: the aggregated expected count is independent of declaration ordering — on two
snapshots whose declaration lists for the service are permutations of one another and whose
config lookups agree and resolve, `get_expected_instances` returns the same value. -/
theorem get_expected_instances_perm (service_name nspace : String) (soa1 soa2 : SoaDir)
    (pairs1 pairs2 : List (String × String)) (cfg : String → String → SrvConfig)
    (hc : soa1.config = soa2.config)
    (h1 : soa1.instance_list service_name = Except.ok pairs1)
    (h2 : soa2.instance_list service_name = Except.ok pairs2)
    (hperm : pairs1.Perm pairs2)
    (hok : ∀ p ∈ pairs1, soa1.config p.1 p.2 = Except.ok (cfg p.1 p.2)) :
    get_expected_instances service_name nspace soa1 =
      get_expected_instances service_name nspace soa2 := by
  have hok2 : ∀ p ∈ pairs2, soa2.config p.1 p.2 = Except.ok (cfg p.1 p.2) := by
    intro p hp
    rw [← hc]
    exact hok p (hperm.mem_iff.mpr hp)
  have e1 : get_expected_instances service_name nspace soa1 =
      Except.ok
        (((pairs1.filter fun p => decide (nspace = (cfg p.1 p.2).nerve_ns.getD p.2)).map
          fun p => (cfg p.1 p.2).instances).sum) := by
    unfold get_expected_instances
    rw [h1]
    exact expected_from_list_eq_sum nspace soa1 cfg pairs1 hok
  have e2 : get_expected_instances service_name nspace soa2 =
      Except.ok
        (((pairs2.filter fun p => decide (nspace = (cfg p.1 p.2).nerve_ns.getD p.2)).map
          fun p => (cfg p.1 p.2).instances).sum) := by
    unfold get_expected_instances
    rw [h2]
    exact expected_from_list_eq_sum nspace soa2 cfg pairs2 hok2
  rw [e1, e2]
  have hps :
      ((pairs1.filter fun p => decide (nspace = (cfg p.1 p.2).nerve_ns.getD p.2)).map
        fun p => (cfg p.1 p.2).instances).Perm
      ((pairs2.filter fun p => decide (nspace = (cfg p.1 p.2).nerve_ns.getD p.2)).map
        fun p => (cfg p.1 p.2).instances) :=
    (hperm.filter _).map _
  rw [hps.sum_eq]

/-- C8 witness: the two orders of the declarations of `mumble` in `soaP1` and `soaP2`. -/
theorem get_expected_instances_perm_w :
    get_expected_instances "mumble" "main" soaP1 =
      get_expected_instances "mumble" "main" soaP2 :=
  get_expected_instances_perm "mumble" "main" soaP1 soaP2
    [("mumble", "main"), ("mumble", "canary")] [("mumble", "canary"), ("mumble", "main")]
    cfgP rfl rfl rfl (List.Perm.swap _ _ _)
    (by intro p hp; simp only [List.mem_cons, List.not_mem_nil, or_false] at hp
        rcases hp with rfl | rfl <;> rfl)

/-- A list with no separator splits to the single chunk holding the whole list. -/
theorem pySplitChars_no_sep (sep : Char) :
    ∀ l : List Char, sep ∉ l → pySplitChars sep l = [l] := by
  intro l
  induction l with
  | nil => intro _; rfl
  | cons c rest ih =>
    intro h
    have hc : ¬ c = sep := fun hh => h (hh ▸ List.mem_cons_self c rest)
    have hr : sep ∉ rest := fun hh => h (List.mem_cons_of_mem _ hh)
    simp only [pySplitChars, if_neg hc, ih hr]

/-- Splitting at the first separator: a separator-free prefix becomes the first chunk. -/
theorem pySplitChars_append (sep : Char) :
    ∀ l r : List Char, sep ∉ l →
      pySplitChars sep (l ++ sep :: r) = l :: pySplitChars sep r := by
  intro l
  induction l with
  | nil => intro r _; simp [pySplitChars]
  | cons c rest ih =>
    intro r h
    have hc : ¬ c = sep := fun hh => h (hh ▸ List.mem_cons_self c rest)
    have hr : sep ∉ rest := fun hh => h (List.mem_cons_of_mem _ hh)
    simp only [List.cons_append, List.append_eq, pySplitChars, if_neg hc, ih r hr]

/-- The character list of an id assembled with the separator. -/
theorem data_sep_append (s t : String) :
    (s ++ ID_SPACER ++ t).data = s.data ++ '.' :: t.data := by
  show ((s ++ ID_SPACER) ++ t).data = _
  rw [String.data_append, String.data_append]
  simp [ID_SPACER]

/-- `split_id` on a well-formed encoded id returns the two components. -/
theorem split_id_well_formed (s t : String) (hs : '.' ∉ s.data) (ht : '.' ∉ t.data) :
    split_id (s ++ ID_SPACER ++ t) = some (s, t) := by
  unfold split_id pySplit
  rw [data_sep_append, pySplitChars_append '.' s.data t.data hs,
    pySplitChars_no_sep '.' t.data ht]
  rfl

/-- `split_id` fails (Python `IndexError`) exactly when the separator is absent. -/
theorem split_id_of_no_sep (s : String) (h : '.' ∉ s.data) : split_id s = none := by
  unfold split_id pySplit
  rw [pySplitChars_no_sep '.' s.data h]
  rfl

/-- `split_id` on an id with more than one separator silently returns the first two fields. -/
theorem split_id_multi (s t rest : String) (hs : '.' ∉ s.data) (ht : '.' ∉ t.data) :
    split_id (s ++ ID_SPACER ++ t ++ ID_SPACER ++ rest) = some (s, t) := by
  unfold split_id pySplit
  have hdata : (s ++ ID_SPACER ++ t ++ ID_SPACER ++ rest).data =
      s.data ++ '.' :: (t.data ++ '.' :: rest.data) := by
    show ((((s ++ ID_SPACER) ++ t) ++ ID_SPACER) ++ rest).data = _
    rw [String.data_append, String.data_append, String.data_append, String.data_append]
    simp [ID_SPACER]
  rw [hdata, pySplitChars_append '.' s.data _ hs, pySplitChars_append '.' t.data _ ht]
  rfl

/-- C7 counterexample: an encoded id in which the separator occurs twice is not rejected —
the claim says parsing fails on such input, but `split_id` silently returns the first two
separator-delimited fields. -/
theorem split_id_multi_sep_cx :
    split_id "a.b.c" = some ("a", "b") ∧ split_id "a.b.c" ≠ none := by
  refine ⟨rfl, ?_⟩
  decide

/-- C7 (amended): for every well-formed encoded id — exactly one separator between
non-empty separator-free components — `split_id` returns the pair; when the separator is
absent, parsing fails (the `IndexError` path, `none`); when the separator occurs more than
once, `split_id` does not fail but silently returns the first two separator-delimited
fields. -/
theorem split_id_amended :
    (∀ s t : String, '.' ∉ s.data → '.' ∉ t.data → s ≠ "" → t ≠ "" →
      split_id (s ++ ID_SPACER ++ t) = some (s, t)) ∧
    (∀ s : String, '.' ∉ s.data → split_id s = none) ∧
    (∀ s t rest : String, '.' ∉ s.data → '.' ∉ t.data →
      split_id (s ++ ID_SPACER ++ t ++ ID_SPACER ++ rest) = some (s, t)) :=
  ⟨fun s t hs ht _ _ => split_id_well_formed s t hs ht, split_id_of_no_sep, split_id_multi⟩

/-- C7 witness: a well-formed id, a separator-free id, and a doubly separated id. -/
theorem split_id_amended_w :
    split_id ("mumble" ++ ID_SPACER ++ "main") = some ("mumble", "main") ∧
    split_id "nodot" = none ∧
    split_id ("a" ++ ID_SPACER ++ "b" ++ ID_SPACER ++ "cd") = some ("a", "b") :=
  ⟨split_id_amended.1 "mumble" "main" (by decide) (by decide) (by decide) (by decide),
   split_id_amended.2.1 "nodot" (by decide),
   split_id_amended.2.2 "a" "b" "cd" (by decide) (by decide)⟩

/-- The evaluated branch of `check_one`: namespace resolved, expected positive, present in
the availability map. -/
theorem check_one_eval_branch (soa_dir : SoaDir) (mon : MonitoringConfig)
    (avail : String → Option Nat) (crit_threshold warn_threshold : Int)
    (full_name service_name nspace : String) (num_expected num_available : Nat)
    (hs : split_id full_name = some (service_name, nspace))
    (he : get_expected_instances service_name nspace soa_dir = Except.ok num_expected)
    (hne : num_expected ≠ 0)
    (ha : avail full_name = some num_available) :
    check_one soa_dir mon avail crit_threshold warn_threshold full_name =
      CheckResult.evaluated
        (classify (ratio_of num_available num_expected) crit_threshold warn_threshold)
        (send_event mon service_name nspace
          (classify (ratio_of num_available num_expected) crit_threshold warn_threshold)
          (threshold_output full_name num_available num_expected warn_threshold
            crit_threshold)) := by
  simp only [check_one, hs, he, ha, if_neg hne]

/-- C1 counterexample: with the defaults `warn = 75 < crit = 90` and expected 10,
available 8, the ratio is 80 — above the warn threshold — yet the check classifies
CRITICAL, so the claimed equivalence "OK if and only if ratio > warn_threshold" is false
as universally stated. -/
theorem classify_ok_iff_cx :
    check_one soaW monW availW8 90 75 "mumble.main" =
      CheckResult.evaluated (classify (ratio_of 8 10) 90 75)
        (send_event monW "mumble" "main" (classify (ratio_of 8 10) 90 75)
          (threshold_output "mumble.main" 8 10 75 90)) ∧
    classify (ratio_of 8 10) 90 75 = Status.CRITICAL ∧
    (75 : ℚ) < ratio_of 8 10 ∧
    ¬(classify (ratio_of 8 10) 90 75 = Status.OK ↔ (75 : ℚ) < ratio_of 8 10) := by
  have hr : ratio_of 8 10 = 80 := by unfold ratio_of; norm_num
  have hc : classify (ratio_of 8 10) 90 75 = Status.CRITICAL := by
    unfold classify
    rw [hr]
    norm_num
  refine ⟨rfl, hc, by rw [hr]; norm_num, ?_⟩
  rw [hc, hr]
  intro hiff
  have hcon := hiff.mpr (by norm_num)
  exact Status.noConfusion hcon

/-- C1 (amended): for every namespace with expected > 0 present in the availability map,
with ratio = (available / expected) * 100 as a rational number and provided
crit_threshold ≤ warn_threshold, the check classifies CRITICAL iff ratio ≤ crit_threshold,
WARNING iff crit_threshold < ratio ≤ warn_threshold, and OK iff ratio > warn_threshold;
the critical comparison is made first, so a ratio equal to both thresholds classifies
CRITICAL.  Without crit_threshold ≤ warn_threshold the CRITICAL and WARNING equivalences
still hold but the OK equivalence fails (see the counterexample). -/
theorem check_one_classifies (soa_dir : SoaDir) (mon : MonitoringConfig)
    (avail : String → Option Nat) (crit_threshold warn_threshold : Int)
    (full_name service_name nspace : String) (num_expected num_available : Nat)
    (hs : split_id full_name = some (service_name, nspace))
    (he : get_expected_instances service_name nspace soa_dir = Except.ok num_expected)
    (hpos : 0 < num_expected)
    (ha : avail full_name = some num_available)
    (hcw : crit_threshold ≤ warn_threshold) :
    (check_one soa_dir mon avail crit_threshold warn_threshold full_name =
      CheckResult.evaluated
        (classify (ratio_of num_available num_expected) crit_threshold warn_threshold)
        (send_event mon service_name nspace
          (classify (ratio_of num_available num_expected) crit_threshold warn_threshold)
          (threshold_output full_name num_available num_expected warn_threshold
            crit_threshold))) ∧
    (classify (ratio_of num_available num_expected) crit_threshold warn_threshold =
        Status.CRITICAL ↔
      ratio_of num_available num_expected ≤ (crit_threshold : ℚ)) ∧
    (classify (ratio_of num_available num_expected) crit_threshold warn_threshold =
        Status.WARNING ↔
      ((crit_threshold : ℚ) < ratio_of num_available num_expected ∧
        ratio_of num_available num_expected ≤ (warn_threshold : ℚ))) ∧
    (classify (ratio_of num_available num_expected) crit_threshold warn_threshold =
        Status.OK ↔
      (warn_threshold : ℚ) < ratio_of num_available num_expected) := by
  have hcwq : (crit_threshold : ℚ) ≤ (warn_threshold : ℚ) := by exact_mod_cast hcw
  refine ⟨check_one_eval_branch soa_dir mon avail crit_threshold warn_threshold full_name
    service_name nspace num_expected num_available hs he (Nat.pos_iff_ne_zero.mp hpos) ha,
    ?_, ?_, ?_⟩
  · unfold classify
    by_cases h1 : ratio_of num_available num_expected ≤ (crit_threshold : ℚ)
    · simp [h1]
    · by_cases h2 : ratio_of num_available num_expected ≤ (warn_threshold : ℚ) <;>
        simp [h1, h2]
  · unfold classify
    by_cases h1 : ratio_of num_available num_expected ≤ (crit_threshold : ℚ)
    · simp [h1, not_lt.mpr h1]
    · by_cases h2 : ratio_of num_available num_expected ≤ (warn_threshold : ℚ)
      · simp [h1, h2, not_le.mp h1]
      · simp [h1, h2]
  · unfold classify
    by_cases h1 : ratio_of num_available num_expected ≤ (crit_threshold : ℚ)
    · simp [h1, not_lt.mpr (h1.trans hcwq)]
    · by_cases h2 : ratio_of num_available num_expected ≤ (warn_threshold : ℚ)
      · simp [h1, h2, not_lt.mpr h2]
      · simp [h1, h2, not_le.mp h2]

/-- C1 witness at `soaW`: expected 10, available 9, crit 50 ≤ warn 75. -/
theorem check_one_classifies_w :
    (check_one soaW monW availW 50 75 "mumble.main" =
      CheckResult.evaluated (classify (ratio_of 9 10) 50 75)
        (send_event monW "mumble" "main" (classify (ratio_of 9 10) 50 75)
          (threshold_output "mumble.main" 9 10 75 50))) ∧
    (classify (ratio_of 9 10) 50 75 = Status.CRITICAL ↔
      ratio_of 9 10 ≤ ((50 : Int) : ℚ)) ∧
    (classify (ratio_of 9 10) 50 75 = Status.WARNING ↔
      (((50 : Int) : ℚ) < ratio_of 9 10 ∧ ratio_of 9 10 ≤ ((75 : Int) : ℚ))) ∧
    (classify (ratio_of 9 10) 50 75 = Status.OK ↔ ((75 : Int) : ℚ) < ratio_of 9 10) :=
  check_one_classifies soaW monW availW 50 75 "mumble.main" "mumble" "main" 10 9 rfl rfl
    (by decide) rfl (by decide)

/-- C3: a namespace with expected > 0 that is absent from the availability map emits a
CRITICAL event carrying the distinct entry-not-found message; the outcome does not depend
on the thresholds — the ratio-based evaluation is never invoked — and is a pure function of
the single availability snapshot. -/
theorem check_one_no_data (soa_dir : SoaDir) (mon : MonitoringConfig)
    (avail : String → Option Nat) (crit_threshold warn_threshold : Int)
    (full_name service_name nspace : String) (num_expected : Nat)
    (hs : split_id full_name = some (service_name, nspace))
    (he : get_expected_instances service_name nspace soa_dir = Except.ok num_expected)
    (hpos : 0 < num_expected)
    (ha : avail full_name = none) :
    check_one soa_dir mon avail crit_threshold warn_threshold full_name =
      CheckResult.no_data
        (send_event mon service_name nspace Status.CRITICAL (not_found_output full_name)) ∧
    (∀ crit2 warn2 : Int,
      check_one soa_dir mon avail crit2 warn2 full_name =
        check_one soa_dir mon avail crit_threshold warn_threshold full_name) := by
  have hne : num_expected ≠ 0 := Nat.pos_iff_ne_zero.mp hpos
  have hbr : ∀ c w : Int, check_one soa_dir mon avail c w full_name =
      CheckResult.no_data
        (send_event mon service_name nspace Status.CRITICAL (not_found_output full_name)) := by
    intro c w
    simp only [check_one, hs, he, ha, if_neg hne]
  exact ⟨hbr _ _, fun c w => (hbr c w).trans (hbr _ _).symm⟩

/-- C3 witness: `mumble.main` expects 10 instances and is absent from `availEmptyW`. -/
theorem check_one_no_data_w :
    check_one soaW monW availEmptyW 90 75 "mumble.main" =
      CheckResult.no_data
        (send_event monW "mumble" "main" Status.CRITICAL (not_found_output "mumble.main")) ∧
    check_one soaW monW availEmptyW 10 99 "mumble.main" =
      check_one soaW monW availEmptyW 90 75 "mumble.main" :=
  ⟨(check_one_no_data soaW monW availEmptyW 90 75 "mumble.main" "mumble" "main" 10 rfl rfl
      (by decide) rfl).1,
   (check_one_no_data soaW monW availEmptyW 90 75 "mumble.main" "mumble" "main" 10 rfl rfl
      (by decide) rfl).2 10 99⟩

/-- C4: when the team lookup for the owning service yields nothing, `send_event` returns
before contacting the transport — no event for any status or output — and the orchestrator
emits no event for any namespace of that service, whatever the verdict path taken. -/
theorem send_event_no_team (mon : MonitoringConfig) (service_name : String)
    (ht : mon.get_team "marathon" service_name = none) :
    (∀ (nspace : String) (status : Status) (output : String),
      send_event mon service_name nspace status output = none) ∧
    (∀ (soa_dir : SoaDir) (avail : String → Option Nat)
      (crit_threshold warn_threshold : Int) (full_name nspace : String),
      split_id full_name = some (service_name, nspace) →
      eventsOf (check_one soa_dir mon avail crit_threshold warn_threshold full_name) =
        []) := by
  have hse : ∀ (nspace : String) (status : Status) (output : String),
      send_event mon service_name nspace status output = none := by
    intro nspace status output
    simp only [send_event, ht]
  refine ⟨hse, ?_⟩
  intro soa_dir avail crit_threshold warn_threshold full_name nspace hs
  cases hge : get_expected_instances service_name nspace soa_dir with
  | error e => simp [check_one, hs, hge, eventsOf]
  | ok k =>
    by_cases hk : k = 0
    · simp [check_one, hs, hge, hk, eventsOf]
    · cases havail : avail full_name with
      | none => simp [check_one, hs, hge, hk, havail, eventsOf, hse]
      | some a => simp [check_one, hs, hge, hk, havail, eventsOf, hse]

/-- C4 witness: under `monNoTeamW` no event leaves the system, also through the
orchestrator on a namespace that would otherwise evaluate. -/
theorem send_event_no_team_w :
    send_event monNoTeamW "mumble" "main" Status.CRITICAL "out" = none ∧
    eventsOf (check_one soaW monNoTeamW availW 90 75 "mumble.main") = [] :=
  ⟨(send_event_no_team monNoTeamW "mumble" rfl).1 "main" Status.CRITICAL "out",
   (send_event_no_team monNoTeamW "mumble" rfl).2 soaW availW 90 75 "mumble.main" "main"
     rfl⟩

/-- C5: a namespace whose id splitting or expected-count resolution raises a structural
error is skipped as not-managed, the run continues, and both the emitted events and the
outcomes of every other namespace are the same as if the failing namespace were absent. -/
theorem check_namespaces_isolates (soa_dir : SoaDir) (mon : MonitoringConfig)
    (avail : String → Option Nat) (crit_threshold warn_threshold : Int) (bad : String)
    (hbad : split_id bad = none ∨
      ∃ s n, split_id bad = some (s, n) ∧
        get_expected_instances s n soa_dir = Except.error ()) :
    check_one soa_dir mon avail crit_threshold warn_threshold bad =
      CheckResult.not_marathon ∧
    (∀ l1 l2 : List String,
      check_namespaces (l1 ++ bad :: l2) avail soa_dir mon crit_threshold warn_threshold =
        check_namespaces (l1 ++ l2) avail soa_dir mon crit_threshold warn_threshold) ∧
    (∀ l1 l2 : List String,
      check_outcomes (l1 ++ bad :: l2) avail soa_dir mon crit_threshold warn_threshold =
        check_outcomes l1 avail soa_dir mon crit_threshold warn_threshold ++
          (bad, CheckResult.not_marathon) ::
            check_outcomes l2 avail soa_dir mon crit_threshold warn_threshold) := by
  have h1 : check_one soa_dir mon avail crit_threshold warn_threshold bad =
      CheckResult.not_marathon := by
    rcases hbad with h | ⟨s, n, hsp, hge⟩
    · simp [check_one, h]
    · simp [check_one, hsp, hge]
  refine ⟨h1, ?_, ?_⟩
  · intro l1 l2
    induction l1 with
    | nil => simp [check_namespaces, h1, eventsOf]
    | cons a t ih => simp only [List.cons_append, List.append_eq, check_namespaces, ih]
  · intro l1 l2
    simp [check_outcomes, h1]

/-- C5 witness: `nodot` has no separator; the run over `["mumble.main", "nodot"]` produces
the same events and the same other outcomes as the run without it. -/
theorem check_namespaces_isolates_w :
    check_one soaW monW availEmptyW 90 75 "nodot" = CheckResult.not_marathon ∧
    check_namespaces (["mumble.main"] ++ "nodot" :: []) availEmptyW soaW monW 90 75 =
      check_namespaces (["mumble.main"] ++ []) availEmptyW soaW monW 90 75 ∧
    check_outcomes (["mumble.main"] ++ "nodot" :: []) availEmptyW soaW monW 90 75 =
      check_outcomes ["mumble.main"] availEmptyW soaW monW 90 75 ++
        ("nodot", CheckResult.not_marathon) ::
          check_outcomes [] availEmptyW soaW monW 90 75 := by
  have h := check_namespaces_isolates soaW monW availEmptyW 90 75 "nodot" (Or.inl rfl)
  exact ⟨h.1, h.2.1 ["mumble.main"] [], h.2.2 ["mumble.main"] []⟩

/-- C6: a namespace whose expected instance count resolves to 0 is skipped with no event
and no error, independently of the availability map and the thresholds; the evaluated
branch — the only one computing the ratio — is reached only with a positive expected
count, so the division by the expected count is guarded. -/
theorem check_one_zero_expected (soa_dir : SoaDir) (mon : MonitoringConfig)
    (full_name service_name nspace : String)
    (hs : split_id full_name = some (service_name, nspace))
    (he : get_expected_instances service_name nspace soa_dir = Except.ok 0) :
    (∀ (avail : String → Option Nat) (crit_threshold warn_threshold : Int),
      check_one soa_dir mon avail crit_threshold warn_threshold full_name =
        CheckResult.zero_expected ∧
      eventsOf (check_one soa_dir mon avail crit_threshold warn_threshold full_name) =
        []) ∧
    (∀ (avail : String → Option Nat) (crit_threshold warn_threshold : Int)
      (full2 : String) (st : Status) (ev : Option Event),
      check_one soa_dir mon avail crit_threshold warn_threshold full2 =
        CheckResult.evaluated st ev →
      ∃ (s2 n2 : String) (e2 : Nat), split_id full2 = some (s2, n2) ∧
        get_expected_instances s2 n2 soa_dir = Except.ok e2 ∧ 0 < e2) := by
  constructor
  · intro avail crit_threshold warn_threshold
    constructor
    · simp [check_one, hs, he]
    · simp [check_one, hs, he, eventsOf]
  · intro avail crit_threshold warn_threshold full2 st ev h
    cases hsp : split_id full2 with
    | none => simp [check_one, hsp] at h
    | some pr =>
      obtain ⟨s2, n2⟩ := pr
      cases hge : get_expected_instances s2 n2 soa_dir with
      | error e => simp [check_one, hsp, hge] at h
      | ok k =>
        by_cases hk : k = 0
        · simp [check_one, hsp, hge, hk] at h
        · exact ⟨s2, n2, k, rfl, hge, Nat.pos_of_ne_zero hk⟩

/-- C6 witness: `other.main` resolves to 0 expected instances under `soaW` and is skipped
whatever the availability map and thresholds. -/
theorem check_one_zero_expected_w :
    (check_one soaW monW availEmptyW 90 75 "other.main" = CheckResult.zero_expected ∧
      eventsOf (check_one soaW monW availEmptyW 90 75 "other.main") = []) ∧
    check_one soaW monW availW 10 20 "other.main" = CheckResult.zero_expected := by
  have h := check_one_zero_expected soaW monW "other.main" "other" "main" rfl rfl
  exact ⟨h.1 availEmptyW 90 75, (h.1 availW 10 20).1⟩

/-- C9: the check is a pure function of its input snapshots — two consecutive runs over the
identical namespace list, SOA snapshot, availability map and thresholds produce identical
per-namespace outcomes and identical emitted events; no hidden state survives between
runs. -/
theorem run_check_twice_same (all_namespaces : List String)
    (available_backends : String → Option Nat) (soa_dir : SoaDir) (mon : MonitoringConfig)
    (crit_threshold warn_threshold : Int) :
    (run_check_twice all_namespaces available_backends soa_dir mon crit_threshold
        warn_threshold).1 =
      (run_check_twice all_namespaces available_backends soa_dir mon crit_threshold
        warn_threshold).2 := rfl

/-- C10: every emitted alert event carries the fixed scheduling parameters
`alert_after = "2m"`, `check_every = "1m"`, `realert_every = -1`, the check name
`check_marathon_services_replication.` followed by the encoded namespace id, and the
routing metadata looked up for the owning service. -/
theorem send_event_fields (mon : MonitoringConfig) (service_name nspace : String)
    (status : Status) (output : String) (ev : Event)
    (h : send_event mon service_name nspace status output = some ev) :
    ev.check_name =
      "check_marathon_services_replication." ++ service_name ++ ID_SPACER ++ nspace ∧
    ev.alert_after = "2m" ∧ ev.check_every = "1m" ∧ ev.realert_every = -1 ∧
    ev.runbook = mon.get_runbook "marathon" service_name ∧
    ev.tip = mon.get_tip "marathon" service_name ∧
    ev.notification_email = mon.get_notification_email "marathon" service_name ∧
    ev.page = mon.get_page "marathon" service_name ∧
    mon.get_team "marathon" service_name = some ev.team ∧
    ev.status = status ∧ ev.output = output := by
  cases ht : mon.get_team "marathon" service_name with
  | none => simp [send_event, ht] at h
  | some team =>
    by_cases hteam : team = ""
    · simp [send_event, ht, hteam] at h
    · simp only [send_event, ht, if_neg hteam, Option.some.injEq] at h
      subst h
      exact ⟨rfl, rfl, rfl, rfl, rfl, rfl, rfl, rfl, rfl, rfl, rfl⟩

/-- C10 witness: the concrete event emitted by `send_event monW "mumble" "main"`. -/
theorem send_event_fields_w :
    evW.check_name =
      "check_marathon_services_replication." ++ "mumble" ++ ID_SPACER ++ "main" ∧
    evW.alert_after = "2m" ∧ evW.check_every = "1m" ∧ evW.realert_every = -1 ∧
    evW.runbook = monW.get_runbook "marathon" "mumble" ∧
    evW.tip = monW.get_tip "marathon" "mumble" ∧
    evW.notification_email = monW.get_notification_email "marathon" "mumble" ∧
    evW.page = monW.get_page "marathon" "mumble" ∧
    monW.get_team "marathon" "mumble" = some evW.team ∧
    evW.status = Status.OK ∧ evW.output = "out" :=
  send_event_fields monW "mumble" "main" Status.OK "out" evW rfl

end MarathonReplication
